import Mathlib

/-!
Shallow embedding of the appointment-management service:
`src/services/appointment_service.py`, `src/repositories/appointment_repository.py`,
`src/services/event_publisher.py`, `src/models/appointment.py`.

Conventions: ids are `Nat`; calendar dates are day ordinals (`Int`);
times of day are seconds since midnight (`Int`); instants are seconds (`Int`),
so `datetime.combine(date, time)` is `date * 86400 + time`.  The clock reads
`date.today()` / `datetime.now()` are injected as explicit parameters
(`today`, `now`).  Fallible service methods return
`Except HTTPException ...`; an `Except.error` result models an
`HTTPException` raised before the repository commit, so a raising path
leaves the durable store untouched.  Side effects towards RabbitMQ and the
database commit are recorded as an ordered trace of `Ev` events.
-/

namespace ApptMgmt

/-- `AppointmentStatus` enum from `src/models/appointment.py`. -/
inductive AppointmentStatus
  | PENDING
  | CONFIRMED
  | REJECTED
  | CANCELLED
  deriving DecidableEq, Repr

/-- Rendering of the enum as Python prints it inside f-strings. -/
def statusText : AppointmentStatus → String
  | .PENDING => "AppointmentStatus.PENDING"
  | .CONFIRMED => "AppointmentStatus.CONFIRMED"
  | .REJECTED => "AppointmentStatus.REJECTED"
  | .CANCELLED => "AppointmentStatus.CANCELLED"

instance : BEq AppointmentStatus := ⟨fun a b => decide (a = b)⟩

/-- `Doctor` model (fields used by the service). -/
structure Doctor where
  id : Nat
  name : String
  department_id : Nat
  is_active : Bool
  deriving DecidableEq, Repr

/-- `DoctorAvailableSlot` model. -/
structure DoctorAvailableSlot where
  id : Nat
  doctor_id : Nat
  available_date : Int
  start_time : Int
  end_time : Int
  is_booked : Bool
  deriving DecidableEq, Repr

/-- `Patient` model (fields used by the service). -/
structure Patient where
  id : Nat
  name : String
  deriving DecidableEq, Repr

/-- `Appointment` model. -/
structure Appointment where
  id : Nat
  patient_id : Nat
  doctor_id : Nat
  department_id : Nat
  slot_id : Nat
  appointment_date : Int
  appointment_time : Int
  reason : String
  is_emergency : Bool
  status : AppointmentStatus
  confirmed_by : Option Nat
  confirmed_at : Option Int
  rejection_reason : Option String
  rejected_at : Option Int
  cancelled_by : Option String
  cancelled_at : Option Int
  cancellation_reason : Option String
  deriving DecidableEq, Repr

/-- The relational store visible to the repositories.  `next_appointment_id`
models the autoincrement primary key assigned on insert. -/
structure DB where
  doctors : List Doctor
  slots : List DoctorAvailableSlot
  patients : List Patient
  appointments : List Appointment
  next_appointment_id : Nat
  deriving DecidableEq, Repr

/-- `HTTPException(status_code, detail)` as raised by the service. -/
structure HTTPException where
  status_code : Nat
  detail : String
  deriving DecidableEq, Repr

/-- Side effects of a service call, in chronological order:
`commit` is the `db.commit()` inside `AppointmentRepository.update`/`create`,
the publish events are the calls into `RabbitMQEventPublisher`. -/
inductive Ev
  | publishConfirmed
  | publishCancelled
  | commit
  deriving DecidableEq, Repr

instance : BEq Ev := ⟨fun a b => decide (a = b)⟩

/-- Boolean test for a successful `Except` result. -/
def isOkB {ε α : Type} : Except ε α → Bool
  | .ok _ => true
  | .error _ => false

/-- Python truthiness of an `Optional[int]` field. -/
def truthyNat : Option Nat → Bool
  | none => false
  | some n => n != 0

/-- Python truthiness of an `Optional[str]` field. -/
def truthyStr : Option String → Bool
  | none => false
  | some s => s != ""

/-- `DoctorRepository.get_by_id`. -/
def doctor_get_by_id (db : DB) (doctor_id : Nat) : Option Doctor :=
  db.doctors.find? (fun d => d.id == doctor_id)

/-- `AvailableSlotRepository.get_by_id`. -/
def slot_get_by_id (db : DB) (slot_id : Nat) : Option DoctorAvailableSlot :=
  db.slots.find? (fun s => s.id == slot_id)

/-- `AvailableSlotRepository.is_slot_available`: slot exists, is not booked,
and its date is today or later. -/
def is_slot_available (db : DB) (today : Int) (slot_id : Nat) : Bool :=
  db.slots.any (fun s =>
    s.id == slot_id && s.is_booked == false && decide (today ≤ s.available_date))

/-- `PatientRepository.get_by_id`. -/
def patient_get_by_id (db : DB) (patient_id : Nat) : Option Patient :=
  db.patients.find? (fun p => p.id == patient_id)

/-- `AppointmentRepository.get_by_id`. -/
def appointment_get_by_id (db : DB) (appointment_id : Nat) : Option Appointment :=
  db.appointments.find? (fun a => a.id == appointment_id)

/-- `Appointment.status.in_([PENDING, CONFIRMED])`. -/
def isActiveStatus (s : AppointmentStatus) : Bool :=
  s == .PENDING || s == .CONFIRMED

/-- `AppointmentRepository.check_appointment_conflict`: any PENDING or
CONFIRMED appointment of the doctor at the same date and time, minus the
optional excluded id (Python truthiness on `exclude_appointment_id`). -/
def check_appointment_conflict (db : DB) (doctor_id : Nat)
    (appointment_date appointment_time : Int)
    (exclude_appointment_id : Option Nat) : Bool :=
  db.appointments.any (fun a =>
    a.doctor_id == doctor_id &&
    a.appointment_date == appointment_date &&
    a.appointment_time == appointment_time &&
    isActiveStatus a.status &&
    (if truthyNat exclude_appointment_id
     then a.id != exclude_appointment_id.getD 0
     else true))

/-- `AppointmentRepository.create`: insert with a fresh primary key and commit. -/
def appointment_repo_create (db : DB) (a : Appointment) : Appointment × DB :=
  let created := { a with id := db.next_appointment_id }
  (created,
   { db with
       appointments := db.appointments ++ [created],
       next_appointment_id := db.next_appointment_id + 1 })

/-- `AppointmentRepository.update`: commit the mutated row, replacing it by id. -/
def appointment_repo_update (db : DB) (a : Appointment) : DB :=
  { db with appointments := db.appointments.map (fun x => if x.id == a.id then a else x) }

/-- `AppointmentCreateDTO`. -/
structure AppointmentCreateDTO where
  patient_id : Nat
  doctor_id : Nat
  department_id : Nat
  slot_id : Nat
  reason : String
  is_emergency : Bool
  deriving DecidableEq, Repr

/-- `AppointmentUpdateDTO` (all fields optional). -/
structure AppointmentUpdateDTO where
  doctor_id : Option Nat
  slot_id : Option Nat
  reason : Option String
  is_emergency : Option Bool
  deriving DecidableEq, Repr

/-- `AppointmentConfirmDTO`. -/
structure AppointmentConfirmDTO where
  action : String
  rejection_reason : Option String
  deriving DecidableEq, Repr

/-- `AppointmentCancelDTO` (`cancelled_by` kept as the string the service
compares against, mirroring the str-enum). -/
structure AppointmentCancelDTO where
  cancelled_by : String
  cancellation_reason : Option String
  deriving DecidableEq, Repr

/-- 404 raised by `_validate_patient_exists`. -/
def patientNotFoundExc (patient_id : Nat) : HTTPException :=
  ⟨404, "Patient with id " ++ toString patient_id ++
    " not found. Please ensure patient is registered in the patient management system."⟩

/-- 404 raised by `create_appointment` step 2. -/
def doctorNotFoundExc (doctor_id : Nat) : HTTPException :=
  ⟨404, "Doctor with id " ++ toString doctor_id ++ " not found or inactive"⟩

/-- 400 raised by `create_appointment` step 3. -/
def departmentMismatchExc : HTTPException :=
  ⟨400, "Doctor does not belong to the specified department"⟩

/-- 400 raised by `create_appointment` step 4. -/
def slotUnavailableExc : HTTPException :=
  ⟨400, "Selected time slot is not available"⟩

/-- 400 raised by `create_appointment` step 5. -/
def invalidSlotForDoctorExc : HTTPException :=
  ⟨400, "Invalid slot for the selected doctor"⟩

/-- `AppointmentService.create_appointment` (use case 1).  Steps 1-7 of the
source in order; note the source performs no conflict check and relies on a
database trigger (outside the repository code) to book the slot. -/
def create_appointment (db : DB) (today : Int) (d : AppointmentCreateDTO) :
    Except HTTPException (Appointment × DB) :=
  if (patient_get_by_id db d.patient_id).isNone then
    .error (patientNotFoundExc d.patient_id)
  else
    match doctor_get_by_id db d.doctor_id with
    | none => .error (doctorNotFoundExc d.doctor_id)
    | some doctor =>
      if doctor.is_active = false then .error (doctorNotFoundExc d.doctor_id)
      else if doctor.department_id ≠ d.department_id then .error departmentMismatchExc
      else if is_slot_available db today d.slot_id = false then .error slotUnavailableExc
      else
        match slot_get_by_id db d.slot_id with
        | none => .error invalidSlotForDoctorExc
        | some slot =>
          if slot.doctor_id ≠ d.doctor_id then .error invalidSlotForDoctorExc
          else
            .ok (appointment_repo_create db
              { id := 0,
                patient_id := d.patient_id,
                doctor_id := d.doctor_id,
                department_id := d.department_id,
                slot_id := d.slot_id,
                appointment_date := slot.available_date,
                appointment_time := slot.start_time,
                reason := d.reason,
                is_emergency := d.is_emergency,
                status := .PENDING,
                confirmed_by := none, confirmed_at := none,
                rejection_reason := none, rejected_at := none,
                cancelled_by := none, cancelled_at := none,
                cancellation_reason := none })

/-- Store with one PENDING appointment of doctor 1 at (day 100, 09:00) on
slot 10, and a second free slot 11 of the same doctor at the same date and
time. -/
def c1db : DB :=
  { doctors := [⟨1, "Doctor One", 1, true⟩],
    slots := [⟨10, 1, 100, 32400, 34200, true⟩, ⟨11, 1, 100, 32400, 34200, false⟩],
    patients := [⟨1, "Patient One"⟩],
    appointments := [{ id := 5, patient_id := 1, doctor_id := 1, department_id := 1,
                       slot_id := 10, appointment_date := 100, appointment_time := 32400,
                       reason := "checkup", is_emergency := false, status := .PENDING,
                       confirmed_by := none, confirmed_at := none,
                       rejection_reason := none, rejected_at := none,
                       cancelled_by := none, cancelled_at := none,
                       cancellation_reason := none }],
    next_appointment_id := 6 }

/-- Booking request for slot 11 of doctor 1 — same date and time as the
existing PENDING appointment. -/
def c1dto : AppointmentCreateDTO := ⟨1, 1, 1, 11, "routine checkup", false⟩

/-- A Python exception escaping a callee. -/
inductive PyExc
  | exc : String → PyExc
  deriving DecidableEq, Repr

deriving instance DecidableEq for Except

/-- Python `str.lower()` (ASCII range, which covers the action strings the
service compares against). -/
def pyLower (s : String) : String := ⟨s.data.map Char.toLower⟩

/-- 404 raised when the appointment id does not resolve. -/
def apptNotFoundExc (appointment_id : Nat) : HTTPException :=
  ⟨404, "Appointment with id " ++ toString appointment_id ++ " not found"⟩

/-- 400 raised by `confirm_appointment` when the status is not PENDING. -/
def notPendingExc (s : AppointmentStatus) : HTTPException :=
  ⟨400, "Appointment is not in PENDING status, current status: " ++ statusText s⟩

/-- 403 raised by `confirm_appointment` on a foreign appointment. -/
def confirmForbiddenExc : HTTPException :=
  ⟨403, "You can only confirm your own appointments"⟩

/-- 400 raised by `confirm_appointment` on reject without a reason. -/
def rejectionReasonRequiredExc : HTTPException :=
  ⟨400, "Rejection reason is required when rejecting an appointment"⟩

/-- 400 raised by `confirm_appointment` on an unknown action. -/
def invalidActionExc : HTTPException :=
  ⟨400, "Action must be either confirm or reject"⟩

/-- `AppointmentService.confirm_appointment` (use case 2).  The `pub`
argument is the outcome of the `publish_appointment_confirmed_today` call
(boolean result or an escaped exception); the source wraps that call in
`try/except` and ignores its return value, so `pub` does not influence the
result.  The event trace records the publish attempt and then the
`appointment_repo.update` commit, in source order: for action `confirm`
the publish attempt happens before the commit. -/
def confirm_appointment (db : DB) (appointment_id : Nat)
    (confirm_data : AppointmentConfirmDTO) (confirmed_by : Nat) (now : Int)
    (pub : Except PyExc Bool) :
    Except HTTPException (DB × List Ev) :=
  match appointment_get_by_id db appointment_id with
  | none => .error (apptNotFoundExc appointment_id)
  | some appointment =>
    if appointment.status ≠ .PENDING then
      .error (notPendingExc appointment.status)
    else if appointment.doctor_id ≠ confirmed_by then
      .error confirmForbiddenExc
    else if pyLower confirm_data.action = "confirm" then
      .ok (appointment_repo_update db
        { appointment with
            status := .CONFIRMED,
            confirmed_by := some confirmed_by,
            confirmed_at := some now },
        [Ev.publishConfirmed, Ev.commit])
    else if pyLower confirm_data.action = "reject" then
      if truthyStr confirm_data.rejection_reason = false then
        .error rejectionReasonRequiredExc
      else
        .ok (appointment_repo_update db
          { appointment with
              status := .REJECTED,
              rejection_reason := confirm_data.rejection_reason,
              rejected_at := some now },
          [Ev.commit])
    else
      .error invalidActionExc

/-- 403 raised by `update_appointment` on a foreign appointment. -/
def updateForbiddenExc : HTTPException :=
  ⟨403, "You can only update your own appointments"⟩

/-- 400 raised by `update_appointment` on a non-updatable status. -/
def cannotUpdateStatusExc (s : AppointmentStatus) : HTTPException :=
  ⟨400, "Cannot update appointment with status: " ++ statusText s⟩

/-- 400 raised by `update_appointment` on a past appointment. -/
def pastUpdateExc : HTTPException :=
  ⟨400, "Cannot update past appointments"⟩

/-- 404 raised by `update_appointment` for a missing or inactive new doctor. -/
def newDoctorNotFoundExc : HTTPException :=
  ⟨404, "New doctor not found or inactive"⟩

/-- 400 raised by `update_appointment` for an unavailable new slot. -/
def newSlotUnavailableExc : HTTPException :=
  ⟨400, "New time slot is not available"⟩

/-- 404 raised by `update_appointment` for a vanished new slot. -/
def newSlotNotFoundExc : HTTPException :=
  ⟨404, "New slot not found"⟩

/-- 400 raised by `update_appointment` when the new slot is not owned by the
(resulting) doctor. -/
def newSlotWrongDoctorExc : HTTPException :=
  ⟨400, "New slot does not belong to the selected doctor"⟩

/-- Doctor-change block of `update_appointment` (`if update_data.doctor_id
and update_data.doctor_id != appointment.doctor_id`): validates the new
doctor exists and is active, silently adopts its department, never touches
any other field. -/
def update_doctor_step (db : DB) (u : AppointmentUpdateDTO)
    (appointment : Appointment) : Except HTTPException Appointment :=
  if truthyNat u.doctor_id && u.doctor_id.getD 0 != appointment.doctor_id then
    match doctor_get_by_id db (u.doctor_id.getD 0) with
    | none => .error newDoctorNotFoundExc
    | some new_doctor =>
      if new_doctor.is_active = false then .error newDoctorNotFoundExc
      else
        .ok { appointment with
          department_id :=
            if new_doctor.department_id ≠ appointment.department_id
            then new_doctor.department_id else appointment.department_id,
          doctor_id := u.doctor_id.getD 0 }
  else .ok appointment

/-- Slot-change block of `update_appointment` (`if update_data.slot_id and
update_data.slot_id != appointment.slot_id`): the ownership check compares
the new slot against the appointment's (possibly just updated) doctor, and
the date/time are adopted from the new slot. -/
def update_slot_step (db : DB) (today : Int) (u : AppointmentUpdateDTO)
    (a1 : Appointment) : Except HTTPException Appointment :=
  if truthyNat u.slot_id && u.slot_id.getD 0 != a1.slot_id then
    if is_slot_available db today (u.slot_id.getD 0) = false then
      .error newSlotUnavailableExc
    else
      match slot_get_by_id db (u.slot_id.getD 0) with
      | none => .error newSlotNotFoundExc
      | some new_slot =>
        if new_slot.doctor_id ≠ a1.doctor_id then
          .error newSlotWrongDoctorExc
        else
          .ok { a1 with
            slot_id := u.slot_id.getD 0,
            appointment_date := new_slot.available_date,
            appointment_time := new_slot.start_time }
  else .ok a1

/-- `if update_data.reason: appointment.reason = update_data.reason`. -/
def update_reason_step (u : AppointmentUpdateDTO) (a2 : Appointment) : Appointment :=
  if truthyStr u.reason then { a2 with reason := u.reason.getD a2.reason } else a2

/-- `if update_data.is_emergency is not None: ...`. -/
def update_emergency_step (u : AppointmentUpdateDTO) (a3 : Appointment) : Appointment :=
  match u.is_emergency with
  | some e => { a3 with is_emergency := e }
  | none => a3

/-- `AppointmentService.update_appointment` (use case 3).  Optional fields
follow Python truthiness; the doctor change is applied before the slot
change, so the slot-ownership check compares against the resulting doctor;
an absent or unchanged `slot_id` skips the ownership check entirely. -/
def update_appointment (db : DB) (today : Int) (appointment_id : Nat)
    (u : AppointmentUpdateDTO) (updated_by_patient_id : Nat) :
    Except HTTPException (Appointment × DB) :=
  match appointment_get_by_id db appointment_id with
  | none => .error (apptNotFoundExc appointment_id)
  | some appointment =>
    if appointment.patient_id ≠ updated_by_patient_id then
      .error updateForbiddenExc
    else if isActiveStatus appointment.status = false then
      .error (cannotUpdateStatusExc appointment.status)
    else if appointment.appointment_date < today then
      .error pastUpdateExc
    else
      match update_doctor_step db u appointment with
      | .error e => .error e
      | .ok a1 =>
        match update_slot_step db today u a1 with
        | .error e => .error e
        | .ok a2 =>
          let a4 := update_emergency_step u (update_reason_step u a2)
          Except.ok (a4, appointment_repo_update db a4)

/-- 400 raised by `cancel_appointment` on an already-cancelled appointment. -/
def alreadyCancelledExc : HTTPException :=
  ⟨400, "Appointment is already cancelled"⟩

/-- 400 raised by `cancel_appointment` on a non-cancellable status. -/
def cannotCancelStatusExc (s : AppointmentStatus) : HTTPException :=
  ⟨400, "Cannot cancel appointment with status: " ++ statusText s⟩

/-- 403 raised by `cancel_appointment` on a foreign appointment. -/
def cancelForbiddenExc : HTTPException :=
  ⟨403, "You can only cancel your own appointments"⟩

/-- 400 raised by `cancel_appointment` on an unknown `cancelled_by`. -/
def invalidCancelledByExc : HTTPException :=
  ⟨400, "Invalid cancelled_by value"⟩

/-- 400 raised by `cancel_appointment` on a regular appointment less than
two hours ahead. -/
def cancelRegularTooLateExc : HTTPException :=
  ⟨400, "Cannot cancel regular appointment within 2 hours of scheduled time. Please contact the hospital directly."⟩

/-- 400 raised by `cancel_appointment` on an emergency appointment less than
thirty minutes ahead. -/
def cancelEmergencyTooLateExc : HTTPException :=
  ⟨400, "Cannot cancel emergency appointment within 30 minutes of scheduled time. Please contact the hospital directly."⟩

/-- `(datetime.combine(date, time) - datetime.now()).total_seconds() / 3600`,
in exact rational arithmetic. -/
def hours_until_appointment (appointment_date appointment_time now : Int) : ℚ :=
  ((appointment_date * 86400 + appointment_time - now : Int) : ℚ) / 3600

/-- The lead time in whole seconds.  The source's guards compare
`hours_until_appointment < 2` and `< 0.5`; in exact arithmetic these are
`seconds_until_appointment < 7200` and `< 1800`, the form used below so
that the guards evaluate by `decide` (see `hours_until_lt_two_iff` and
`hours_until_lt_half_iff`). -/
def seconds_until_appointment (appointment_date appointment_time now : Int) : Int :=
  appointment_date * 86400 + appointment_time - now

/-- Steps 4-6 of `AppointmentService.cancel_appointment`: lead-time policy
check (raised before any mutation), then the cancellation commit, then —
only when the pre-cancel status was CONFIRMED — the publish attempt. -/
def cancel_time_check_and_commit (db : DB) (appointment : Appointment)
    (cancel_data : AppointmentCancelDTO) (now : Int) :
    Except HTTPException (DB × List Ev) :=
  let s := seconds_until_appointment appointment.appointment_date appointment.appointment_time now
  if appointment.is_emergency = false ∧ s < 7200 then
    .error cancelRegularTooLateExc
  else if appointment.is_emergency = true ∧ s < 1800 then
    .error cancelEmergencyTooLateExc
  else
    let was_previously_confirmed := appointment.status = .CONFIRMED
    .ok (appointment_repo_update db
      { appointment with
          status := .CANCELLED,
          cancelled_by := some cancel_data.cancelled_by,
          cancelled_at := some now,
          cancellation_reason := cancel_data.cancellation_reason },
      Ev.commit :: (if was_previously_confirmed then [Ev.publishCancelled] else []))

/-- `AppointmentService.cancel_appointment` (use case 4).  The `pub`
argument is the outcome of the `publish_appointment_cancelled` call; the
source wraps that call in `try/except` and ignores its return value, so
`pub` does not influence the result. -/
def cancel_appointment (db : DB) (appointment_id : Nat)
    (cancel_data : AppointmentCancelDTO) (cancelled_by_user_id : Nat) (now : Int)
    (pub : Except PyExc Bool) :
    Except HTTPException (DB × List Ev) :=
  match appointment_get_by_id db appointment_id with
  | none => .error (apptNotFoundExc appointment_id)
  | some appointment =>
    if appointment.status = .CANCELLED then .error alreadyCancelledExc
    else if isActiveStatus appointment.status = false then
      .error (cannotCancelStatusExc appointment.status)
    else if cancel_data.cancelled_by = "PATIENT" then
      if appointment.patient_id ≠ cancelled_by_user_id then .error cancelForbiddenExc
      else cancel_time_check_and_commit db appointment cancel_data now
    else if cancel_data.cancelled_by = "DOCTOR" then
      if appointment.doctor_id ≠ cancelled_by_user_id then .error cancelForbiddenExc
      else cancel_time_check_and_commit db appointment cancel_data now
    else .error invalidCancelledByExc

/-- Connection/channel pair of `RabbitMQEventPublisher` (`None` fields are
modelled as the flags being false). -/
structure PubState where
  connection_open : Bool
  channel_open : Bool
  deriving DecidableEq, Repr

/-- Behaviour of the pika transport during one publisher call: each field is
the outcome (normal return or raised exception) of the corresponding
library call. -/
structure Transport where
  connect_result : Except PyExc Unit
  setup_result : Except PyExc Unit
  basic_publish_result : Except PyExc Unit
  health_raises : Bool
  deriving Repr

/-- `RabbitMQEventPublisher._setup_connection`: on any failure (connecting,
or declaring the exchanges/queues — whose own `raise` is caught here) both
fields are reset to `None`; never raises. -/
def setup_connection (t : Transport) : PubState :=
  match t.connect_result with
  | .error _ => ⟨false, false⟩
  | .ok _ =>
    match t.setup_result with
    | .error _ => ⟨false, false⟩
    | .ok _ => ⟨true, true⟩

/-- `RabbitMQEventPublisher._is_connection_healthy`: any exception while
probing yields `False`. -/
def is_connection_healthy (t : Transport) (s : PubState) : Bool :=
  if t.health_raises then false else s.connection_open && s.channel_open

/-- `RabbitMQEventPublisher.publish_appointment_confirmed_today`: reconnect
if unhealthy, give up with `False` without a channel, otherwise attempt the
publish with the `try/except` mapping any exception to `False`. -/
def publish_appointment_confirmed_today (t : Transport) (s : PubState) :
    Except PyExc (Bool × PubState) :=
  let s1 := if is_connection_healthy t s = false then setup_connection t else s
  if s1.channel_open = false then .ok (false, s1)
  else
    match t.basic_publish_result with
    | .ok _ => .ok (true, s1)
    | .error _ => .ok (false, s1)

/-- `RabbitMQEventPublisher.publish_appointment_cancelled`: same control
flow as the confirmed variant. -/
def publish_appointment_cancelled (t : Transport) (s : PubState) :
    Except PyExc (Bool × PubState) :=
  let s1 := if is_connection_healthy t s = false then setup_connection t else s
  if s1.channel_open = false then .ok (false, s1)
  else
    match t.basic_publish_result with
    | .ok _ => .ok (true, s1)
    | .error _ => .ok (false, s1)

/-- A PENDING appointment of doctor 1 / patient 1 at (day 100, 09:00). -/
def pendingAppt : Appointment :=
  { id := 5, patient_id := 1, doctor_id := 1, department_id := 1, slot_id := 10,
    appointment_date := 100, appointment_time := 32400, reason := "checkup",
    is_emergency := false, status := .PENDING, confirmed_by := none, confirmed_at := none,
    rejection_reason := none, rejected_at := none, cancelled_by := none,
    cancelled_at := none, cancellation_reason := none }

/-- Store holding `pendingAppt`, its doctor, its patient, its slot, a second
doctor with a free slot, and a second free slot of doctor 1. -/
def pendingDb : DB :=
  { doctors := [⟨1, "Doctor One", 1, true⟩, ⟨2, "Doctor Two", 1, true⟩],
    slots := [⟨10, 1, 100, 32400, 34200, true⟩, ⟨12, 2, 101, 28800, 30600, false⟩,
              ⟨13, 1, 101, 28800, 30600, false⟩],
    patients := [⟨1, "Patient One"⟩],
    appointments := [pendingAppt],
    next_appointment_id := 6 }

/-- `pendingAppt` in CONFIRMED state. -/
def confirmedAppt : Appointment :=
  { pendingAppt with status := .CONFIRMED, confirmed_by := some 1, confirmed_at := some 0 }

/-- Store holding `confirmedAppt`. -/
def confirmedDb : DB :=
  { pendingDb with appointments := [confirmedAppt] }

/-- `pendingAppt` in REJECTED state. -/
def rejectedAppt : Appointment :=
  { pendingAppt with
    status := .REJECTED,
    rejection_reason := some "busy",
    rejected_at := some 0 }

/-- Store holding `rejectedAppt`. -/
def rejectedDb : DB :=
  { pendingDb with appointments := [rejectedAppt] }

/-- `pendingAppt` as confirmed by doctor 1 at instant 1000. -/
def c2conf : Appointment :=
  { pendingAppt with
    status := .CONFIRMED,
    confirmed_by := some 1,
    confirmed_at := some 1000 }

/-- `pendingDb` after committing `c2conf`. -/
def c2post : DB := appointment_repo_update pendingDb c2conf

/-- `confirmedAppt` as cancelled by the patient at instant 0. -/
def c4rec : Appointment :=
  { confirmedAppt with
    status := .CANCELLED,
    cancelled_by := some "PATIENT",
    cancelled_at := some 0,
    cancellation_reason := none }

/-- `confirmedDb` after committing `c4rec`. -/
def c4post : DB := appointment_repo_update confirmedDb c4rec

/-- `pendingAppt` as rejected at instant 77. -/
def c6rec : Appointment :=
  { pendingAppt with
    status := .REJECTED,
    rejection_reason := some "too busy",
    rejected_at := some 77 }

/-- `pendingDb` after committing `c6rec`. -/
def c6post : DB := appointment_repo_update pendingDb c6rec

/-- `pendingAppt` moved to slot 13 of the same doctor. -/
def c7rec : Appointment :=
  { pendingAppt with
    slot_id := 13,
    appointment_date := 101,
    appointment_time := 28800 }

/-- `pendingDb` after committing `c7rec`. -/
def c7post : DB := appointment_repo_update pendingDb c7rec

/-- `pendingAppt` with only the reason replaced. -/
def c9rec : Appointment :=
  { pendingAppt with reason := "updated reason" }

/-- `pendingDb` after committing `c9rec`. -/
def c9post : DB := appointment_repo_update pendingDb c9rec

/-- `pendingAppt` as confirmed by doctor 1 at instant 9. -/
def c10rec : Appointment :=
  { pendingAppt with
    status := .CONFIRMED,
    confirmed_by := some 1,
    confirmed_at := some 9 }

/-- `pendingDb` after committing `c10rec`. -/
def c10post : DB := appointment_repo_update pendingDb c10rec

end ApptMgmt

namespace ApptMgmt

/-- `isActiveStatus` spelled out. -/
theorem isActiveStatus_iff (s : AppointmentStatus) :
    isActiveStatus s = true ↔ (s = .PENDING ∨ s = .CONFIRMED) := by
  cases s <;> decide

/-- The source's regular guard `hours_until_appointment < 2` is exactly the
integer-second comparison used in `cancel_time_check_and_commit`. -/
theorem hours_until_lt_two_iff (d t now : Int) :
    hours_until_appointment d t now < 2 ↔ seconds_until_appointment d t now < 7200 := by
  unfold hours_until_appointment seconds_until_appointment
  have h2 : ((2:ℚ) * 3600) = ((7200 : Int) : ℚ) := by norm_num
  rw [div_lt_iff₀ (by norm_num : (0:ℚ) < 3600), h2, Int.cast_lt]

/-- The source's emergency guard `hours_until_appointment < 0.5` is exactly
the integer-second comparison used in `cancel_time_check_and_commit`. -/
theorem hours_until_lt_half_iff (d t now : Int) :
    hours_until_appointment d t now < 1/2 ↔ seconds_until_appointment d t now < 1800 := by
  unfold hours_until_appointment seconds_until_appointment
  have h2 : ((1:ℚ)/2 * 3600) = ((1800 : Int) : ℚ) := by norm_num
  rw [div_lt_iff₀ (by norm_num : (0:ℚ) < 3600), h2, Int.cast_lt]

/-- Replacing the fetched row by one with the same id makes a later fetch
return the replacement (the shape of `appointment_repo_update`). -/
theorem find?_map_replace (i : Nat) (a b : Appointment) (hid : b.id = a.id) :
    ∀ l : List Appointment, l.find? (fun x => x.id == i) = some a →
      (l.map (fun x => if x.id == b.id then b else x)).find? (fun x => x.id == i) = some b := by
  intro l
  induction l with
  | nil => intro h; simp at h
  | cons x xs ih =>
    intro hget
    by_cases hx : (x.id == i) = true
    · simp only [List.find?_cons, hx] at hget
      have hxa : x = a := Option.some.inj hget
      subst hxa
      have hxb : (x.id == b.id) = true := by simp [hid]
      have hb : (b.id == i) = true := by rw [hid]; exact hx
      simp only [List.map_cons]
      rw [if_pos hxb]
      simp only [List.find?_cons, hb]
    · have hx' : (x.id == i) = false := by simpa using hx
      simp only [List.find?_cons, hx'] at hget
      have ha : a.id = i := by simpa using List.find?_some hget
      have hxb : ¬ ((x.id == b.id) = true) := by
        simp only [beq_iff_eq, hid, ha]
        simpa using hx'
      simp only [List.map_cons]
      rw [if_neg hxb]
      simp only [List.find?_cons, hx']
      exact ih hget

/-- Fetching from `appointment_repo_update db b` after fetching `a` with the
same id from `db`. -/
theorem get_by_id_after_repo_update (db : DB) (i : Nat) (a b : Appointment)
    (hget : appointment_get_by_id db i = some a) (hid : b.id = a.id) :
    appointment_get_by_id (appointment_repo_update db b) i = some b := by
  unfold appointment_get_by_id appointment_repo_update
  exact find?_map_replace i a b hid db.appointments hget

/-- Anatomy of a successful `confirm_appointment`: the appointment existed
in PENDING, belonged to the confirming doctor, and the result is either the
confirm branch (with its publish-then-commit trace) or the reject branch
(with a commit-only trace). -/
theorem confirm_ok_shape (db : DB) (appointment_id : Nat) (cd : AppointmentConfirmDTO)
    (confirmed_by : Nat) (now : Int) (pub : Except PyExc Bool) (db' : DB) (evs : List Ev)
    (hok : confirm_appointment db appointment_id cd confirmed_by now pub = .ok (db', evs)) :
    ∃ a, appointment_get_by_id db appointment_id = some a ∧
      a.status = .PENDING ∧ a.doctor_id = confirmed_by ∧
      ((pyLower cd.action = "confirm" ∧
        db' = appointment_repo_update db
          { a with
            status := .CONFIRMED,
            confirmed_by := some confirmed_by,
            confirmed_at := some now } ∧
        evs = [Ev.publishConfirmed, Ev.commit]) ∨
       (pyLower cd.action = "reject" ∧ truthyStr cd.rejection_reason = true ∧
        db' = appointment_repo_update db
          { a with
            status := .REJECTED,
            rejection_reason := cd.rejection_reason,
            rejected_at := some now } ∧
        evs = [Ev.commit])) := by
  unfold confirm_appointment at hok
  cases hget : appointment_get_by_id db appointment_id with
  | none => simp only [hget] at hok; exact absurd hok (by simp)
  | some a =>
    simp only [hget] at hok
    refine ⟨a, rfl, ?_⟩
    by_cases hstat : a.status = .PENDING
    · rw [if_neg (by simp [hstat])] at hok
      by_cases hdoc : a.doctor_id = confirmed_by
      · rw [if_neg (by simp [hdoc])] at hok
        by_cases hconfirm : pyLower cd.action = "confirm"
        · rw [if_pos hconfirm] at hok
          simp only [Except.ok.injEq, Prod.mk.injEq] at hok
          exact ⟨hstat, hdoc, Or.inl ⟨hconfirm, hok.1.symm, hok.2.symm⟩⟩
        · rw [if_neg hconfirm] at hok
          by_cases hreject : pyLower cd.action = "reject"
          · rw [if_pos hreject] at hok
            cases htr : truthyStr cd.rejection_reason with
            | false => rw [if_pos htr] at hok; exact absurd hok (by simp)
            | true =>
              rw [if_neg (by simp [htr])] at hok
              simp only [Except.ok.injEq, Prod.mk.injEq] at hok
              exact ⟨hstat, hdoc, Or.inr ⟨hreject, rfl, hok.1.symm, hok.2.symm⟩⟩
          · rw [if_neg hreject] at hok
            exact absurd hok (by simp)
      · rw [if_pos (show a.doctor_id ≠ confirmed_by from hdoc)] at hok
        exact absurd hok (by simp)
    · rw [if_pos (show a.status ≠ .PENDING from hstat)] at hok
      exact absurd hok (by simp)

/-- Anatomy of a successful `cancel_appointment`: the appointment existed in
PENDING or CONFIRMED, the stored row becomes CANCELLED, and the trace is the
commit followed by a publish attempt exactly when the pre-cancel status was
CONFIRMED. -/
theorem cancel_ok_shape (db : DB) (appointment_id : Nat) (cd : AppointmentCancelDTO)
    (uid : Nat) (now : Int) (pub : Except PyExc Bool) (db' : DB) (evs : List Ev)
    (hok : cancel_appointment db appointment_id cd uid now pub = .ok (db', evs)) :
    ∃ a, appointment_get_by_id db appointment_id = some a ∧
      (a.status = .PENDING ∨ a.status = .CONFIRMED) ∧
      db' = appointment_repo_update db
        { a with
          status := .CANCELLED,
          cancelled_by := some cd.cancelled_by,
          cancelled_at := some now,
          cancellation_reason := cd.cancellation_reason } ∧
      evs = Ev.commit :: (if a.status = .CONFIRMED then [Ev.publishCancelled] else []) := by
  unfold cancel_appointment cancel_time_check_and_commit at hok
  cases hget : appointment_get_by_id db appointment_id with
  | none => simp only [hget] at hok; exact absurd hok (by simp)
  | some a =>
    simp only [hget] at hok
    refine ⟨a, rfl, ?_⟩
    by_cases h1 : a.status = .CANCELLED
    · rw [if_pos h1] at hok; exact absurd hok (by simp)
    · rw [if_neg h1] at hok
      cases h2 : isActiveStatus a.status with
      | false => rw [if_pos h2] at hok; exact absurd hok (by simp)
      | true =>
        rw [if_neg (by simp [h2])] at hok
        have hact : a.status = .PENDING ∨ a.status = .CONFIRMED :=
          (isActiveStatus_iff a.status).mp h2
        by_cases h3 : cd.cancelled_by = "PATIENT"
        · rw [if_pos h3] at hok
          by_cases h4 : a.patient_id = uid
          · rw [if_neg (by simp [h4])] at hok
            by_cases t1 : a.is_emergency = false ∧
                seconds_until_appointment a.appointment_date a.appointment_time now < 7200
            · rw [if_pos t1] at hok; exact absurd hok (by simp)
            · rw [if_neg t1] at hok
              by_cases t2 : a.is_emergency = true ∧
                  seconds_until_appointment a.appointment_date a.appointment_time now < 1800
              · rw [if_pos t2] at hok; exact absurd hok (by simp)
              · rw [if_neg t2] at hok
                simp only [Except.ok.injEq, Prod.mk.injEq] at hok
                exact ⟨hact, hok.1.symm, hok.2.symm⟩
          · rw [if_pos (show a.patient_id ≠ uid from h4)] at hok
            exact absurd hok (by simp)
        · rw [if_neg h3] at hok
          by_cases h5 : cd.cancelled_by = "DOCTOR"
          · rw [if_pos h5] at hok
            by_cases h6 : a.doctor_id = uid
            · rw [if_neg (by simp [h6])] at hok
              by_cases t1 : a.is_emergency = false ∧
                  seconds_until_appointment a.appointment_date a.appointment_time now < 7200
              · rw [if_pos t1] at hok; exact absurd hok (by simp)
              · rw [if_neg t1] at hok
                by_cases t2 : a.is_emergency = true ∧
                    seconds_until_appointment a.appointment_date a.appointment_time now < 1800
                · rw [if_pos t2] at hok; exact absurd hok (by simp)
                · rw [if_neg t2] at hok
                  simp only [Except.ok.injEq, Prod.mk.injEq] at hok
                  exact ⟨hact, hok.1.symm, hok.2.symm⟩
            · rw [if_pos (show a.doctor_id ≠ uid from h6)] at hok
              exact absurd hok (by simp)
          · rw [if_neg h5] at hok
            exact absurd hok (by simp)

/-- `update_doctor_step` only ever changes `doctor_id` and `department_id`. -/
theorem update_doctor_step_frame (db : DB) (u : AppointmentUpdateDTO)
    (a a1 : Appointment) (h : update_doctor_step db u a = .ok a1) :
    a1.id = a.id ∧ a1.patient_id = a.patient_id ∧ a1.slot_id = a.slot_id ∧
    a1.appointment_date = a.appointment_date ∧ a1.appointment_time = a.appointment_time ∧
    a1.reason = a.reason ∧ a1.is_emergency = a.is_emergency ∧ a1.status = a.status := by
  unfold update_doctor_step at h
  by_cases hc : (truthyNat u.doctor_id && u.doctor_id.getD 0 != a.doctor_id) = true
  · rw [if_pos hc] at h
    cases hd : doctor_get_by_id db (u.doctor_id.getD 0) with
    | none => simp only [hd] at h; exact absurd h (by simp)
    | some nd =>
      simp only [hd] at h
      cases hia : nd.is_active with
      | false => rw [if_pos hia] at h; exact absurd h (by simp)
      | true =>
        rw [if_neg (by simp [hia])] at h
        cases Except.ok.inj h
        exact ⟨rfl, rfl, rfl, rfl, rfl, rfl, rfl, rfl⟩
  · rw [if_neg hc] at h
    cases Except.ok.inj h
    exact ⟨rfl, rfl, rfl, rfl, rfl, rfl, rfl, rfl⟩

/-- `update_slot_step` only ever changes `slot_id`, `appointment_date` and
`appointment_time`, and when it does change them the new slot exists in the
store, belongs to the appointment's doctor, and supplies the new date/time. -/
theorem update_slot_step_frame (db : DB) (today : Int) (u : AppointmentUpdateDTO)
    (a1 a2 : Appointment) (h : update_slot_step db today u a1 = .ok a2) :
    a2.id = a1.id ∧ a2.patient_id = a1.patient_id ∧ a2.doctor_id = a1.doctor_id ∧
    a2.department_id = a1.department_id ∧ a2.reason = a1.reason ∧
    a2.is_emergency = a1.is_emergency ∧ a2.status = a1.status ∧
    (a2.slot_id = a1.slot_id ∨
      ∃ new_slot, slot_get_by_id db a2.slot_id = some new_slot ∧
        new_slot.doctor_id = a1.doctor_id ∧
        a2.appointment_date = new_slot.available_date ∧
        a2.appointment_time = new_slot.start_time) := by
  unfold update_slot_step at h
  by_cases hc : (truthyNat u.slot_id && u.slot_id.getD 0 != a1.slot_id) = true
  · rw [if_pos hc] at h
    by_cases hav : is_slot_available db today (u.slot_id.getD 0) = false
    · rw [if_pos hav] at h; exact absurd h (by simp)
    · rw [if_neg hav] at h
      cases hs : slot_get_by_id db (u.slot_id.getD 0) with
      | none => simp only [hs] at h; exact absurd h (by simp)
      | some new_slot =>
        simp only [hs] at h
        by_cases hown : new_slot.doctor_id = a1.doctor_id
        · rw [if_neg (by simp [hown])] at h
          cases Except.ok.inj h
          exact ⟨rfl, rfl, rfl, rfl, rfl, rfl, rfl,
            Or.inr ⟨new_slot, hs, hown, rfl, rfl⟩⟩
        · rw [if_pos (show new_slot.doctor_id ≠ a1.doctor_id from hown)] at h
          exact absurd h (by simp)
  · rw [if_neg hc] at h
    cases Except.ok.inj h
    exact ⟨rfl, rfl, rfl, rfl, rfl, rfl, rfl, Or.inl rfl⟩

/-- The reason/emergency replace-if-present steps never touch identity,
doctor, department, slot, date, time or status, and set the reason exactly
when a truthy reason was supplied. -/
theorem update_post_steps_frame (u : AppointmentUpdateDTO) (a2 : Appointment) :
    (update_emergency_step u (update_reason_step u a2)).id = a2.id ∧
    (update_emergency_step u (update_reason_step u a2)).patient_id = a2.patient_id ∧
    (update_emergency_step u (update_reason_step u a2)).doctor_id = a2.doctor_id ∧
    (update_emergency_step u (update_reason_step u a2)).department_id = a2.department_id ∧
    (update_emergency_step u (update_reason_step u a2)).slot_id = a2.slot_id ∧
    (update_emergency_step u (update_reason_step u a2)).appointment_date = a2.appointment_date ∧
    (update_emergency_step u (update_reason_step u a2)).appointment_time = a2.appointment_time ∧
    (update_emergency_step u (update_reason_step u a2)).status = a2.status ∧
    (update_emergency_step u (update_reason_step u a2)).reason =
      (if truthyStr u.reason then u.reason.getD a2.reason else a2.reason) := by
  unfold update_emergency_step update_reason_step
  cases he : u.is_emergency with
  | none =>
    by_cases hr : truthyStr u.reason = true
    · rw [if_pos hr, if_pos hr]
      exact ⟨rfl, rfl, rfl, rfl, rfl, rfl, rfl, rfl, rfl⟩
    · rw [if_neg hr, if_neg hr]
      exact ⟨rfl, rfl, rfl, rfl, rfl, rfl, rfl, rfl, rfl⟩
  | some e =>
    by_cases hr : truthyStr u.reason = true
    · rw [if_pos hr, if_pos hr]
      exact ⟨rfl, rfl, rfl, rfl, rfl, rfl, rfl, rfl, rfl⟩
    · rw [if_neg hr, if_neg hr]
      exact ⟨rfl, rfl, rfl, rfl, rfl, rfl, rfl, rfl, rfl⟩

/-- Anatomy of a successful `update_appointment`: the guards passed and the
result is the post-steps record, committed. -/
theorem update_ok_shape (db : DB) (today : Int) (appointment_id : Nat)
    (u : AppointmentUpdateDTO) (pid : Nat) (r : Appointment) (db' : DB)
    (hok : update_appointment db today appointment_id u pid = .ok (r, db')) :
    ∃ a a1 a2, appointment_get_by_id db appointment_id = some a ∧
      a.patient_id = pid ∧ isActiveStatus a.status = true ∧
      ¬ a.appointment_date < today ∧
      update_doctor_step db u a = .ok a1 ∧
      update_slot_step db today u a1 = .ok a2 ∧
      r = update_emergency_step u (update_reason_step u a2) ∧
      db' = appointment_repo_update db r := by
  unfold update_appointment at hok
  cases hget : appointment_get_by_id db appointment_id with
  | none => simp only [hget] at hok; exact absurd hok (by simp)
  | some a =>
    simp only [hget] at hok
    by_cases hpat : a.patient_id = pid
    · rw [if_neg (by simp [hpat])] at hok
      cases hact : isActiveStatus a.status with
      | false => rw [if_pos hact] at hok; exact absurd hok (by simp)
      | true =>
        rw [if_neg (by simp [hact])] at hok
        by_cases hdate : a.appointment_date < today
        · rw [if_pos hdate] at hok; exact absurd hok (by simp)
        · rw [if_neg hdate] at hok
          cases h1 : update_doctor_step db u a with
          | error e => simp only [h1] at hok; exact absurd hok (by simp)
          | ok a1 =>
            simp only [h1] at hok
            cases h2 : update_slot_step db today u a1 with
            | error e => simp only [h2] at hok; exact absurd hok (by simp)
            | ok a2 =>
              simp only [h2] at hok
              simp only [Except.ok.injEq, Prod.mk.injEq] at hok
              exact ⟨a, a1, a2, rfl, hpat, hact, hdate, h1, h2,
                hok.1.symm, by rw [← hok.1]; exact hok.2.symm⟩
    · rw [if_pos (show a.patient_id ≠ pid from hpat)] at hok
      exact absurd hok (by simp)

end ApptMgmt

namespace ApptMgmt

/-- C1 counterexample: doctor 1 already has a PENDING appointment at
(day 100, 09:00) — `check_appointment_conflict` reports a conflict — yet
`create_appointment` for a second slot at the same date and time succeeds,
so Create performs no secondary conflict check and does not fail with
Conflict. -/
theorem C1_counterexample :
    check_appointment_conflict c1db 1 100 32400 none = true ∧
    isOkB (create_appointment c1db 100 c1dto) = true := by
  decide

/-- C1 (amended): whenever the patient, doctor, department and slot
validations pass, Create succeeds and appends the new PENDING appointment
even when `check_appointment_conflict` already reports a PENDING or
CONFIRMED appointment of the same doctor at the same date and time; no
conflict check is consulted. -/
theorem C1_create_skips_conflict_check
    (db : DB) (today : Int) (d : AppointmentCreateDTO)
    (doctor : Doctor) (slot : DoctorAvailableSlot)
    (hp : (patient_get_by_id db d.patient_id).isSome = true)
    (hd : doctor_get_by_id db d.doctor_id = some doctor)
    (hact : doctor.is_active = true)
    (hdep : doctor.department_id = d.department_id)
    (hav : is_slot_available db today d.slot_id = true)
    (hs : slot_get_by_id db d.slot_id = some slot)
    (hown : slot.doctor_id = d.doctor_id)
    (hconf : check_appointment_conflict db d.doctor_id
      slot.available_date slot.start_time none = true) :
    ∃ a db', create_appointment db today d = .ok (a, db') ∧
      db'.appointments = db.appointments ++ [a] ∧ a.status = .PENDING := by
  cases hpn : patient_get_by_id db d.patient_id with
  | none => rw [hpn] at hp; simp at hp
  | some p =>
    unfold create_appointment
    rw [hpn, hd, hs]
    simp only [Option.isNone_some, Bool.false_eq_true, if_false, hact, hdep, hav,
      hown, ne_eq, not_true_eq_false, Bool.true_eq_false, ite_false]
    exact ⟨_, _, rfl, rfl, rfl⟩

/-- C1 witness: the amended theorem applied to the concrete conflicting
store `c1db`. -/
theorem C1_create_skips_conflict_check_witness :
    ∃ a db', create_appointment c1db 100 c1dto = .ok (a, db') ∧
      db'.appointments = c1db.appointments ++ [a] ∧ a.status = .PENDING :=
  C1_create_skips_conflict_check c1db 100 c1dto
    ⟨1, "Doctor One", 1, true⟩ ⟨11, 1, 100, 32400, 34200, false⟩
    (by decide) (by decide) rfl rfl (by decide) (by decide) rfl (by decide)

/-- C2 counterexample: confirming `pendingAppt` yields the event trace
`[publishConfirmed, commit]` — the "appointment confirmed" publish attempt
happens strictly BEFORE the `appointment_repo.update` commit (source lines
186-209 publish, line 230 commits), refuting the claim that the publish
never precedes the commit. -/
theorem C2_counterexample :
    confirm_appointment pendingDb 5 ⟨"confirm", none⟩ 1 1000 (Except.ok true) =
      .ok (c2post, [Ev.publishConfirmed, Ev.commit]) := by
  decide

/-- C2 (amended): for every Confirm with action `confirm` that succeeds,
the notification publish attempt occurs after the in-memory status change
but strictly BEFORE the durable commit: the trace is always
`[publishConfirmed, commit]`. -/
theorem C2_publish_attempt_precedes_commit
    (db : DB) (appointment_id : Nat) (cd : AppointmentConfirmDTO)
    (confirmed_by : Nat) (now : Int) (pub : Except PyExc Bool) (db' : DB) (evs : List Ev)
    (hact : pyLower cd.action = "confirm")
    (hok : confirm_appointment db appointment_id cd confirmed_by now pub = .ok (db', evs)) :
    evs = [Ev.publishConfirmed, Ev.commit] := by
  obtain ⟨a, hget, hst, hdoc, hcase⟩ :=
    confirm_ok_shape db appointment_id cd confirmed_by now pub db' evs hok
  rcases hcase with ⟨hc, hdb, hevs⟩ | ⟨hr, htr, hdb, hevs⟩
  · exact hevs
  · rw [hact] at hr
    exact absurd hr (by decide)

/-- C2 witness: the amended theorem instantiated on `pendingDb`. -/
theorem C2_publish_attempt_precedes_commit_witness :
    ([Ev.publishConfirmed, Ev.commit] : List Ev) = [Ev.publishConfirmed, Ev.commit] :=
  C2_publish_attempt_precedes_commit pendingDb 5 ⟨"confirm", none⟩ 1 1000 (Except.ok true)
    c2post [Ev.publishConfirmed, Ev.commit] (by decide) (by decide)

/-- C3: REJECTED and CANCELLED are terminal — Confirm, Update and Cancel
all fail on them — and the successful operations realise only the
transitions PENDING→CONFIRMED, PENDING→REJECTED, PENDING→CANCELLED and
CONFIRMED→CANCELLED, with Update never changing the status at all. -/
theorem C3_terminal_states_frozen
    (db : DB) (appointment_id : Nat) (a : Appointment)
    (hget : appointment_get_by_id db appointment_id = some a) :
    ((a.status = .REJECTED ∨ a.status = .CANCELLED) →
      (∀ cd cb now pub, isOkB (confirm_appointment db appointment_id cd cb now pub) = false) ∧
      (∀ today u pid, isOkB (update_appointment db today appointment_id u pid) = false) ∧
      (∀ cd uid now pub, isOkB (cancel_appointment db appointment_id cd uid now pub) = false)) ∧
    (∀ cd cb now pub db' evs,
      confirm_appointment db appointment_id cd cb now pub = .ok (db', evs) →
      a.status = .PENDING ∧
      ∃ a2, appointment_get_by_id db' appointment_id = some a2 ∧
        (a2.status = .CONFIRMED ∨ a2.status = .REJECTED)) ∧
    (∀ today u pid r db',
      update_appointment db today appointment_id u pid = .ok (r, db') →
      r.status = a.status ∧ appointment_get_by_id db' appointment_id = some r) ∧
    (∀ cd uid now pub db' evs,
      cancel_appointment db appointment_id cd uid now pub = .ok (db', evs) →
      (a.status = .PENDING ∨ a.status = .CONFIRMED) ∧
      ∃ a2, appointment_get_by_id db' appointment_id = some a2 ∧ a2.status = .CANCELLED) := by
  refine ⟨?_, ?_, ?_, ?_⟩
  · intro hterm
    have hne : a.status ≠ .PENDING := by
      rcases hterm with h | h <;> rw [h] <;> decide
    have hia : isActiveStatus a.status = false := by
      rcases hterm with h | h <;> rw [h] <;> decide
    refine ⟨?_, ?_, ?_⟩
    · intro cd cb now pub
      unfold confirm_appointment
      simp only [hget]
      rw [if_pos hne]
      rfl
    · intro today u pid
      unfold update_appointment
      simp only [hget]
      by_cases hpat : a.patient_id = pid
      · rw [if_neg (by simp [hpat]), if_pos hia]
        rfl
      · rw [if_pos (show a.patient_id ≠ pid from hpat)]
        rfl
    · intro cd uid now pub
      unfold cancel_appointment
      simp only [hget]
      by_cases hc : a.status = .CANCELLED
      · rw [if_pos hc]; rfl
      · rw [if_neg hc, if_pos hia]; rfl
  · intro cd cb now pub db' evs hok
    obtain ⟨a0, hget0, hst, hdoc, hcase⟩ :=
      confirm_ok_shape db appointment_id cd cb now pub db' evs hok
    rw [hget] at hget0
    cases Option.some.inj hget0
    refine ⟨hst, ?_⟩
    rcases hcase with ⟨hc, hdb, hevs⟩ | ⟨hr, htr, hdb, hevs⟩
    · subst hdb
      exact ⟨_, get_by_id_after_repo_update db appointment_id a _ hget rfl, Or.inl rfl⟩
    · subst hdb
      exact ⟨_, get_by_id_after_repo_update db appointment_id a _ hget rfl, Or.inr rfl⟩
  · intro today u pid r db' hok
    obtain ⟨a0, a1, a2, hget0, hpat, hact, hdate, h1, h2, hr, hdb⟩ :=
      update_ok_shape db today appointment_id u pid r db' hok
    rw [hget] at hget0
    cases Option.some.inj hget0
    have f1 := update_doctor_step_frame db u a a1 h1
    have f2 := update_slot_step_frame db today u a1 a2 h2
    have f3 := update_post_steps_frame u a2
    constructor
    · rw [hr, f3.2.2.2.2.2.2.2.1, f2.2.2.2.2.2.2.1]
      exact f1.2.2.2.2.2.2.2
    · subst hdb
      refine get_by_id_after_repo_update db appointment_id a r hget ?_
      rw [hr, f3.1, f2.1, f1.1]
  · intro cd uid now pub db' evs hok
    obtain ⟨a0, hget0, hst, hdb, hevs⟩ :=
      cancel_ok_shape db appointment_id cd uid now pub db' evs hok
    rw [hget] at hget0
    cases Option.some.inj hget0
    refine ⟨hst, ?_⟩
    subst hdb
    exact ⟨_, get_by_id_after_repo_update db appointment_id a _ hget rfl, rfl⟩

/-- C3 witness: on the rejected appointment of `rejectedDb`, Confirm fails. -/
theorem C3_terminal_states_frozen_witness :
    isOkB (confirm_appointment rejectedDb 5 ⟨"confirm", none⟩ 1 0 (Except.ok true)) = false :=
  ((C3_terminal_states_frozen rejectedDb 5 rejectedAppt (by decide)).1 (Or.inl rfl)).1
    ⟨"confirm", none⟩ 1 0 (Except.ok true)

/-- C4: a successful Cancel records exactly one `appointment_cancelled`
publish attempt when the pre-cancel status was CONFIRMED and none when it
was PENDING. -/
theorem C4_cancel_notify_iff_was_confirmed
    (db : DB) (appointment_id : Nat) (cd : AppointmentCancelDTO) (uid : Nat)
    (now : Int) (pub : Except PyExc Bool) (db' : DB) (evs : List Ev) (a : Appointment)
    (hget : appointment_get_by_id db appointment_id = some a)
    (hok : cancel_appointment db appointment_id cd uid now pub = .ok (db', evs)) :
    evs.count Ev.publishCancelled = (if a.status = .CONFIRMED then 1 else 0) ∧
    (a.status = .PENDING → evs.count Ev.publishCancelled = 0) := by
  obtain ⟨a0, hget0, hst, hdb, hevs⟩ :=
    cancel_ok_shape db appointment_id cd uid now pub db' evs hok
  rw [hget] at hget0
  cases Option.some.inj hget0
  subst hevs
  constructor
  · by_cases hc : a.status = .CONFIRMED
    · rw [if_pos hc, if_pos hc]
      decide
    · rw [if_neg hc, if_neg hc]
      decide
  · intro hp
    have hc : ¬ a.status = .CONFIRMED := by rw [hp]; decide
    rw [if_neg hc]
    decide

/-- C4 witness: cancelling the CONFIRMED appointment of `confirmedDb`
produces exactly one publish attempt. -/
theorem C4_cancel_notify_iff_was_confirmed_witness :
    ([Ev.commit, Ev.publishCancelled] : List Ev).count Ev.publishCancelled =
      (if confirmedAppt.status = .CONFIRMED then 1 else 0) :=
  (C4_cancel_notify_iff_was_confirmed confirmedDb 5 ⟨"PATIENT", none⟩ 1 0 (Except.ok true)
    c4post [Ev.commit, Ev.publishCancelled] confirmedAppt (by decide) (by decide)).1

/-- C5: with the appointment found, cancellable and the caller authorised,
cancellation is denied exactly when the lead time is under two hours
(regular) or under thirty minutes (emergency); the boundary lead times are
allowed, a negative lead time is denied by the same comparison, and the
denial is an exception raised before the commit (an `Except.error`, which
in this embedding leaves the store untouched). -/
theorem C5_cancellation_policy
    (db : DB) (appointment_id : Nat) (cd : AppointmentCancelDTO) (uid : Nat)
    (now : Int) (pub : Except PyExc Bool) (a : Appointment)
    (hget : appointment_get_by_id db appointment_id = some a)
    (hst : a.status = .PENDING ∨ a.status = .CONFIRMED)
    (hauth : (cd.cancelled_by = "PATIENT" ∧ a.patient_id = uid) ∨
             (cd.cancelled_by = "DOCTOR" ∧ a.doctor_id = uid)) :
    (a.is_emergency = false →
      (hours_until_appointment a.appointment_date a.appointment_time now < 2 →
        cancel_appointment db appointment_id cd uid now pub = .error cancelRegularTooLateExc) ∧
      (2 ≤ hours_until_appointment a.appointment_date a.appointment_time now →
        isOkB (cancel_appointment db appointment_id cd uid now pub) = true)) ∧
    (a.is_emergency = true →
      (hours_until_appointment a.appointment_date a.appointment_time now < 1/2 →
        cancel_appointment db appointment_id cd uid now pub = .error cancelEmergencyTooLateExc) ∧
      (1/2 ≤ hours_until_appointment a.appointment_date a.appointment_time now →
        isOkB (cancel_appointment db appointment_id cd uid now pub) = true)) := by
  have hred : cancel_appointment db appointment_id cd uid now pub =
      cancel_time_check_and_commit db a cd now := by
    unfold cancel_appointment
    simp only [hget]
    have hnc : ¬ a.status = .CANCELLED := by
      rcases hst with h | h <;> rw [h] <;> decide
    rw [if_neg hnc]
    have hia : isActiveStatus a.status = true := (isActiveStatus_iff a.status).mpr hst
    rw [if_neg (by simp [hia])]
    rcases hauth with ⟨hcb, hid⟩ | ⟨hcb, hid⟩
    · rw [if_pos hcb, if_neg (by simp [hid])]
    · rw [if_neg (by rw [hcb]; decide), if_pos hcb, if_neg (by simp [hid])]
  rw [hred]
  simp only [cancel_time_check_and_commit]
  constructor
  · intro hem
    constructor
    · intro hlt
      have hs : seconds_until_appointment a.appointment_date a.appointment_time now < 7200 :=
        (hours_until_lt_two_iff _ _ _).mp hlt
      rw [if_pos ⟨hem, hs⟩]
    · intro hge
      have hs : ¬ seconds_until_appointment a.appointment_date a.appointment_time now < 7200 := by
        rw [← hours_until_lt_two_iff]
        exact not_lt.mpr hge
      rw [if_neg (fun hc => hs hc.2)]
      rw [if_neg (fun hc => absurd hc.1 (by rw [hem]; decide))]
      rfl
  · intro hem
    constructor
    · intro hlt
      have hs : seconds_until_appointment a.appointment_date a.appointment_time now < 1800 :=
        (hours_until_lt_half_iff _ _ _).mp hlt
      rw [if_neg (fun hc => absurd hc.1 (by rw [hem]; decide))]
      rw [if_pos ⟨hem, hs⟩]
    · intro hge
      have hs : ¬ seconds_until_appointment a.appointment_date a.appointment_time now < 1800 := by
        rw [← hours_until_lt_half_iff]
        exact not_lt.mpr hge
      rw [if_neg (fun hc => absurd hc.1 (by rw [hem]; decide))]
      rw [if_neg (fun hc => hs hc.2)]
      rfl

/-- C5 witness: a regular appointment exactly two hours out may be
cancelled. -/
theorem C5_cancellation_policy_witness :
    isOkB (cancel_appointment pendingDb 5 ⟨"PATIENT", none⟩ 1 8665200 (Except.ok true)) = true :=
  ((C5_cancellation_policy pendingDb 5 ⟨"PATIENT", none⟩ 1 8665200 (Except.ok true) pendingAppt
      (by decide) (Or.inl rfl) (Or.inl ⟨rfl, rfl⟩)).1 rfl).2
    (by norm_num [hours_until_appointment, pendingAppt])

/-- C6: the error ladder of Confirm in source order — NotFound, InvalidState
(status not PENDING), Forbidden (caller is not the appointment doctor),
InvalidArgument (reject without a reason; unknown action) — and a valid
reject commits REJECTED with the reason and timestamp and records no
publish attempt. -/
theorem C6_confirm_guards
    (db : DB) (appointment_id : Nat) (cd : AppointmentConfirmDTO)
    (cb : Nat) (now : Int) (pub : Except PyExc Bool) :
    (appointment_get_by_id db appointment_id = none →
      confirm_appointment db appointment_id cd cb now pub =
        .error (apptNotFoundExc appointment_id)) ∧
    (∀ a, appointment_get_by_id db appointment_id = some a →
      a.status ≠ .PENDING →
      confirm_appointment db appointment_id cd cb now pub = .error (notPendingExc a.status)) ∧
    (∀ a, appointment_get_by_id db appointment_id = some a →
      a.status = .PENDING → a.doctor_id ≠ cb →
      confirm_appointment db appointment_id cd cb now pub = .error confirmForbiddenExc) ∧
    (∀ a, appointment_get_by_id db appointment_id = some a →
      a.status = .PENDING → a.doctor_id = cb →
      pyLower cd.action = "reject" → truthyStr cd.rejection_reason = false →
      confirm_appointment db appointment_id cd cb now pub = .error rejectionReasonRequiredExc) ∧
    (∀ a, appointment_get_by_id db appointment_id = some a →
      a.status = .PENDING → a.doctor_id = cb →
      pyLower cd.action ≠ "confirm" → pyLower cd.action ≠ "reject" →
      confirm_appointment db appointment_id cd cb now pub = .error invalidActionExc) ∧
    (∀ a, appointment_get_by_id db appointment_id = some a →
      a.status = .PENDING → a.doctor_id = cb →
      pyLower cd.action = "reject" → truthyStr cd.rejection_reason = true →
      confirm_appointment db appointment_id cd cb now pub =
        .ok (appointment_repo_update db
          { a with
            status := .REJECTED,
            rejection_reason := cd.rejection_reason,
            rejected_at := some now }, [Ev.commit])) := by
  refine ⟨?_, ?_, ?_, ?_, ?_, ?_⟩
  · intro hnone
    unfold confirm_appointment
    simp only [hnone]
  · intro a hget hne
    unfold confirm_appointment
    simp only [hget]
    rw [if_pos hne]
  · intro a hget hst hdoc
    unfold confirm_appointment
    simp only [hget]
    rw [if_neg (by simp [hst]), if_pos hdoc]
  · intro a hget hst hdoc hrej hres
    unfold confirm_appointment
    simp only [hget]
    rw [if_neg (by simp [hst]), if_neg (by simp [hdoc])]
    rw [if_neg (by rw [hrej]; decide), if_pos hrej, if_pos hres]
  · intro a hget hst hdoc hcon hrej
    unfold confirm_appointment
    simp only [hget]
    rw [if_neg (by simp [hst]), if_neg (by simp [hdoc]), if_neg hcon, if_neg hrej]
  · intro a hget hst hdoc hrej hres
    unfold confirm_appointment
    simp only [hget]
    rw [if_neg (by simp [hst]), if_neg (by simp [hdoc])]
    rw [if_neg (by rw [hrej]; decide), if_pos hrej, if_neg (by simp [hres])]

/-- C6 witness: a valid reject of `pendingAppt` commits REJECTED with
reason and timestamp and a commit-only trace. -/
theorem C6_confirm_guards_witness :
    confirm_appointment pendingDb 5 ⟨"reject", some "too busy"⟩ 1 77 (Except.ok true) =
      .ok (c6post, [Ev.commit]) :=
  (C6_confirm_guards pendingDb 5 ⟨"reject", some "too busy"⟩ 1 77
    (Except.ok true)).2.2.2.2.2 pendingAppt (by decide) rfl rfl (by decide) (by decide)

/-- C7 counterexample: an Update that changes only the doctor (1 → 2)
succeeds while keeping slot 10, which belongs to doctor 1 — after the
update the appointment slot does not belong to the appointment doctor,
refuting the claim for doctor-only updates. -/
theorem C7_counterexample :
    (update_appointment pendingDb 100 5 ⟨some 2, none, none, none⟩ 1).map
        (fun p => (p.1.doctor_id, p.1.slot_id)) = Except.ok (2, 10) ∧
    (slot_get_by_id pendingDb 10).map (fun s => s.doctor_id) = some 1 := by
  decide

/-- C7 (amended): after every successful Create the appointment slot
belongs to the appointment doctor, and likewise after every successful
Update that supplies a new, different slot; an Update that changes only the
doctor skips the ownership re-check (see the counterexample). -/
theorem C7_slot_ownership :
    (∀ db today d a db', create_appointment db today d = .ok (a, db') →
      ∃ s, slot_get_by_id db a.slot_id = some s ∧ s.doctor_id = a.doctor_id) ∧
    (∀ db today appointment_id u pid a r db' ns,
      appointment_get_by_id db appointment_id = some a →
      u.slot_id = some ns → ns ≠ 0 → ns ≠ a.slot_id →
      update_appointment db today appointment_id u pid = .ok (r, db') →
      ∃ s, slot_get_by_id db r.slot_id = some s ∧ s.doctor_id = r.doctor_id) := by
  constructor
  · intro db today d a db' hok
    unfold create_appointment at hok
    by_cases hp : (patient_get_by_id db d.patient_id).isNone = true
    · rw [if_pos hp] at hok; exact absurd hok (by simp)
    · rw [if_neg hp] at hok
      cases hd : doctor_get_by_id db d.doctor_id with
      | none => simp only [hd] at hok; exact absurd hok (by simp)
      | some doctor =>
        simp only [hd] at hok
        cases hact : doctor.is_active with
        | false => rw [if_pos hact] at hok; exact absurd hok (by simp)
        | true =>
          rw [if_neg (by simp [hact])] at hok
          by_cases hdep : doctor.department_id = d.department_id
          · rw [if_neg (by simp [hdep])] at hok
            cases hav : is_slot_available db today d.slot_id with
            | false => rw [if_pos hav] at hok; exact absurd hok (by simp)
            | true =>
              rw [if_neg (by simp [hav])] at hok
              cases hs : slot_get_by_id db d.slot_id with
              | none => simp only [hs] at hok; exact absurd hok (by simp)
              | some slot =>
                simp only [hs] at hok
                by_cases hown : slot.doctor_id = d.doctor_id
                · rw [if_neg (by simp [hown])] at hok
                  simp only [Except.ok.injEq, appointment_repo_create, Prod.mk.injEq] at hok
                  obtain ⟨ha, hdb2⟩ := hok
                  subst ha
                  exact ⟨slot, hs, hown⟩
                · rw [if_pos (show slot.doctor_id ≠ d.doctor_id from hown)] at hok
                  exact absurd hok (by simp)
          · rw [if_pos (show doctor.department_id ≠ d.department_id from hdep)] at hok
            exact absurd hok (by simp)
  · intro db today appointment_id u pid a r db' ns hget hus hns0 hnsne hok
    obtain ⟨a0, a1, a2, hget0, hpat, hact, hdate, h1, h2, hr, hdb⟩ :=
      update_ok_shape db today appointment_id u pid r db' hok
    rw [hget] at hget0
    cases Option.some.inj hget0
    have f1 := update_doctor_step_frame db u a a1 h1
    have f3 := update_post_steps_frame u a2
    have hslot1 : a1.slot_id = a.slot_id := f1.2.2.1
    have hcond : (truthyNat u.slot_id && u.slot_id.getD 0 != a1.slot_id) = true := by
      rw [hus, hslot1]
      simp [truthyNat, hns0, hnsne]
    unfold update_slot_step at h2
    rw [if_pos hcond] at h2
    by_cases hav : is_slot_available db today (u.slot_id.getD 0) = false
    · rw [if_pos hav] at h2; exact absurd h2 (by simp)
    · rw [if_neg hav] at h2
      cases hs : slot_get_by_id db (u.slot_id.getD 0) with
      | none => simp only [hs] at h2; exact absurd h2 (by simp)
      | some new_slot =>
        simp only [hs] at h2
        by_cases hown : new_slot.doctor_id = a1.doctor_id
        · rw [if_neg (by simp [hown])] at h2
          have ha2 : a2 = { a1 with
              slot_id := u.slot_id.getD 0,
              appointment_date := new_slot.available_date,
              appointment_time := new_slot.start_time } := (Except.ok.inj h2).symm
          refine ⟨new_slot, ?_, ?_⟩
          · rw [hr, f3.2.2.2.2.1, ha2]
            exact hs
          · rw [hr, f3.2.2.1, ha2]
            exact hown
        · rw [if_pos (show new_slot.doctor_id ≠ a1.doctor_id from hown)] at h2
          exact absurd h2 (by simp)

/-- C7 witness: the amended theorem on an Update of `pendingAppt` that
moves it to slot 13 of the same doctor. -/
theorem C7_slot_ownership_witness :
    ∃ s, slot_get_by_id pendingDb c7rec.slot_id = some s ∧ s.doctor_id = c7rec.doctor_id :=
  C7_slot_ownership.2 pendingDb 100 5 ⟨none, some 13, none, none⟩ 1 pendingAppt c7rec c7post 13
    (by decide) rfl (by decide) (by decide) (by decide)

/-- C8: both publisher entry points return a boolean (an `.ok` result) for
every transport behaviour — every raising sub-call is inside a
`try/except` — and the publish outcome observed at the Confirm/Cancel call
site (a boolean or an escaped exception) has no influence whatsoever on the
business result. -/
theorem C8_publish_never_raises_and_is_inert :
    (∀ t s, isOkB (publish_appointment_confirmed_today t s) = true) ∧
    (∀ t s, isOkB (publish_appointment_cancelled t s) = true) ∧
    (∀ db appointment_id cd cb now p q,
      confirm_appointment db appointment_id cd cb now p =
        confirm_appointment db appointment_id cd cb now q) ∧
    (∀ db appointment_id cd uid now p q,
      cancel_appointment db appointment_id cd uid now p =
        cancel_appointment db appointment_id cd uid now q) := by
  refine ⟨?_, ?_, fun _ _ _ _ _ _ _ => rfl, fun _ _ _ _ _ _ _ => rfl⟩
  · intro t s
    simp only [publish_appointment_confirmed_today]
    by_cases hch :
        (if is_connection_healthy t s = false then setup_connection t else s).channel_open = false
    · rw [if_pos hch]; rfl
    · rw [if_neg hch]
      cases hb : t.basic_publish_result with
      | ok u => rfl
      | error e => rfl
  · intro t s
    simp only [publish_appointment_cancelled]
    by_cases hch :
        (if is_connection_healthy t s = false then setup_connection t else s).channel_open = false
    · rw [if_pos hch]; rfl
    · rw [if_neg hch]
      cases hb : t.basic_publish_result with
      | ok u => rfl
      | error e => rfl

/-- C9: an Update carrying only a (truthy) reason leaves slot, date, time,
doctor, department and status untouched, replaces exactly the reason, and
commits just that record. -/
theorem C9_update_reason_only_frame
    (db : DB) (today : Int) (appointment_id : Nat) (pid : Nat) (rsn : String)
    (a r : Appointment) (db' : DB)
    (hrsn : rsn ≠ "")
    (hget : appointment_get_by_id db appointment_id = some a)
    (hok : update_appointment db today appointment_id ⟨none, none, some rsn, none⟩ pid =
      .ok (r, db')) :
    r.slot_id = a.slot_id ∧ r.appointment_date = a.appointment_date ∧
    r.appointment_time = a.appointment_time ∧ r.doctor_id = a.doctor_id ∧
    r.department_id = a.department_id ∧ r.status = a.status ∧ r.reason = rsn ∧
    db' = appointment_repo_update db r := by
  obtain ⟨a0, a1, a2, hget0, hpat, hact, hdate, h1, h2, hr, hdb⟩ :=
    update_ok_shape db today appointment_id ⟨none, none, some rsn, none⟩ pid r db' hok
  rw [hget] at hget0
  cases Option.some.inj hget0
  have ha1 : a1 = a := by
    unfold update_doctor_step at h1
    rw [if_neg (by simp [truthyNat])] at h1
    exact (Except.ok.inj h1).symm
  subst ha1
  have ha2 : a2 = a1 := by
    unfold update_slot_step at h2
    rw [if_neg (by simp [truthyNat])] at h2
    exact (Except.ok.inj h2).symm
  subst ha2
  have htr : truthyStr (some rsn) = true := by simp [truthyStr, hrsn]
  have f3 := update_post_steps_frame ⟨none, none, some rsn, none⟩ a2
  refine ⟨?_, ?_, ?_, ?_, ?_, ?_, ?_, hdb⟩
  · rw [hr]; exact f3.2.2.2.2.1
  · rw [hr]; exact f3.2.2.2.2.2.1
  · rw [hr]; exact f3.2.2.2.2.2.2.1
  · rw [hr]; exact f3.2.2.1
  · rw [hr]; exact f3.2.2.2.1
  · rw [hr]; exact f3.2.2.2.2.2.2.2.1
  · rw [hr, f3.2.2.2.2.2.2.2.2]
    simp [truthyStr, hrsn]

/-- C9 witness: the frame theorem on `pendingDb` with a fresh reason. -/
theorem C9_update_reason_only_frame_witness :
    c9rec.slot_id = pendingAppt.slot_id ∧
    c9rec.appointment_date = pendingAppt.appointment_date ∧
    c9rec.appointment_time = pendingAppt.appointment_time ∧
    c9rec.doctor_id = pendingAppt.doctor_id ∧
    c9rec.department_id = pendingAppt.department_id ∧
    c9rec.status = pendingAppt.status ∧ c9rec.reason = "updated reason" ∧
    c9post = appointment_repo_update pendingDb c9rec :=
  C9_update_reason_only_frame pendingDb 100 5 1 "updated reason" pendingAppt c9rec c9post
    (by decide) (by decide) (by decide)

/-- C10: Confirm compares the lowercased action: any capitalisation of
"confirm" confirms, any capitalisation of "reject" with a truthy reason
rejects, and a string lowercasing to neither is InvalidArgument. -/
theorem C10_confirm_action_case_insensitive
    (db : DB) (appointment_id : Nat) (a : Appointment) (act : String)
    (rr : Option String) (cb : Nat) (now : Int) (pub : Except PyExc Bool)
    (hget : appointment_get_by_id db appointment_id = some a)
    (hst : a.status = .PENDING)
    (hdoc : a.doctor_id = cb) :
    (pyLower act = "confirm" →
      confirm_appointment db appointment_id ⟨act, rr⟩ cb now pub =
        .ok (appointment_repo_update db
          { a with
            status := .CONFIRMED,
            confirmed_by := some cb,
            confirmed_at := some now }, [Ev.publishConfirmed, Ev.commit])) ∧
    (pyLower act = "reject" → truthyStr rr = true →
      confirm_appointment db appointment_id ⟨act, rr⟩ cb now pub =
        .ok (appointment_repo_update db
          { a with
            status := .REJECTED,
            rejection_reason := rr,
            rejected_at := some now }, [Ev.commit])) ∧
    (pyLower act ≠ "confirm" → pyLower act ≠ "reject" →
      confirm_appointment db appointment_id ⟨act, rr⟩ cb now pub = .error invalidActionExc) := by
  refine ⟨?_, ?_, ?_⟩
  · intro hc
    unfold confirm_appointment
    simp only [hget]
    rw [if_neg (by simp [hst]), if_neg (by simp [hdoc]), if_pos hc]
  · intro hrj htr
    unfold confirm_appointment
    simp only [hget]
    rw [if_neg (by simp [hst]), if_neg (by simp [hdoc])]
    rw [if_neg (by rw [hrj]; decide), if_pos hrj, if_neg (by simp [htr])]
  · intro hc hrj
    unfold confirm_appointment
    simp only [hget]
    rw [if_neg (by simp [hst]), if_neg (by simp [hdoc]), if_neg hc, if_neg hrj]

/-- C10 witness: the uppercase action "CONFIRM" confirms `pendingAppt`. -/
theorem C10_confirm_action_case_insensitive_witness :
    confirm_appointment pendingDb 5 ⟨"CONFIRM", none⟩ 1 9 (Except.ok true) =
      .ok (c10post, [Ev.publishConfirmed, Ev.commit]) :=
  (C10_confirm_action_case_insensitive pendingDb 5 pendingAppt "CONFIRM" none 1 9
    (Except.ok true) (by decide) rfl rfl).1 (by decide)

end ApptMgmt
